import Mathlib

/-!
Shallow embedding of the chat client session manager (the `ChatComponent`
implementation: socket connection, room membership, message log, text/file
sending, and full exit/reset), together with proofs of the specified
properties of its state machine.

React `useState` fields become fields of a `State` structure; each callback
becomes a function `State → State × List Event`, where the event list records
the socket emissions (and transport-level actions) performed by that call.
Socket handler closures (`newMessage`, `newMessages`, connection status
events) become functions on `State`; they are deliverable only while a socket
handle exists, which the operation layer (`applyOp`) enforces.  Truthiness of
JavaScript strings (`if (roomId)`) is modelled as `≠ ""`, and of nullable
values as `Option.isSome`.
-/

/-- Message kinds, after the `MessageType` enum. -/
inductive MessageType
  | text
  | file
  | system
  deriving DecidableEq

/-- A message sender, after the `sender` field of `Message`. -/
structure Sender where
  id : Nat
  name : String
  profileImageUrl : Option String
  deriving DecidableEq

/-- A received file descriptor, after the `file` field of `Message`. -/
structure FileInfo where
  url : String
  name : String
  size : Nat
  deriving DecidableEq

/-- A chat message, after the `Message` interface.  `sentAt` timestamps are
modelled as naturals. -/
structure Message where
  type : MessageType
  sender : Option Sender
  content : Option String
  file : Option FileInfo
  sentAt : Nat
  deriving DecidableEq

/-- A room summary, after the `ChatRoom` interface. -/
structure ChatRoom where
  id : String
  name : String
  participantsCount : Nat
  unreadMessageCount : Nat
  lastMessage : String
  timeAgo : String
  deriving DecidableEq

/-- The current user, after the `User` interface (only the fields the chat
client reads). -/
structure User where
  id : Nat
  fullName : String
  deriving DecidableEq

/-- A locally selected file pending send, after the DOM `File` object
(name, MIME type, byte size). -/
structure FileRef where
  name : String
  type : String
  size : Nat
  deriving DecidableEq

/-- Observable actions of a call: socket emissions and transport-level
connection management.  Sockets are identified by the `Nat` handle that
created them. -/
inductive Event
  | connCreated (sock : Nat) (token : String)
  | emitJoinRoom (sock : Nat) (roomId : String)
  | emitLeaveRoom (sock : Nat) (roomId : String)
  | emitSendText (sock : Nat) (roomId : String) (content : String)
  | emitSendFile (sock : Nat) (roomId : String) (fileName : String)
      (fileType : String) (fileSize : Nat) (fileData : List Nat)
  | disconnect (sock : Nat)
  deriving DecidableEq

/-- `true` exactly on transport `disconnect` events. -/
def Event.isDisconnect : Event → Bool
  | .disconnect _ => true
  | _ => false

/-- `true` exactly on `leave-room` emissions. -/
def Event.isLeaveRoom : Event → Bool
  | .emitLeaveRoom _ _ => true
  | _ => false

/-- The component state: one field per `useState` hook, plus the
transport-level bookkeeping (`openConns` is the set of connections created
and not yet disconnected, `nextId` supplies fresh socket handles). -/
structure State where
  socket : Option Nat
  authToken : String
  chatRooms : List ChatRoom
  currentRoom : Option String
  messages : List Message
  inputMessage : String
  file : Option FileRef
  isConnected : Bool
  currentUser : Option User
  openConns : List Nat
  nextId : Nat
  deriving DecidableEq

/-- Initial state of the component: every hook at its initial value. -/
def initState : State :=
  { socket := none
    authToken := ""
    chatRooms := []
    currentRoom := none
    messages := []
    inputMessage := ""
    file := none
    isConnected := false
    currentUser := none
    openConns := []
    nextId := 0 }

/-- JavaScript truthiness of the nullable `currentRoom` string. -/
def roomTruthy : Option String → Bool
  | some r => r != ""
  | none => false

/-- `connectSocket`: guarded by a truthy `authToken`; creates a fresh socket
(registering its handlers), stores it, and leaves any previous connection
untouched. -/
def connectSocket (s : State) : State × List Event :=
  if s.authToken != "" then
    ({ s with
        socket := some s.nextId
        openConns := s.openConns ++ [s.nextId]
        nextId := s.nextId + 1 },
     [Event.connCreated s.nextId s.authToken])
  else (s, [])

/-- `leaveRoom`: guarded by `socket && currentRoom`; emits `leave-room` with
the current room, clears the current room and the message log. -/
def leaveRoom (s : State) : State × List Event :=
  match s.socket, s.currentRoom with
  | some k, some r =>
      if r != "" then
        ({ s with currentRoom := none, messages := [] },
         [Event.emitLeaveRoom k r])
      else (s, [])
  | _, _ => (s, [])

/-- `joinRoom`: guarded by `socket && roomId`; if a room is current it first
runs `leaveRoom`, then emits `join-room`, sets the room and clears the log. -/
def joinRoom (roomId : String) (s : State) : State × List Event :=
  match s.socket with
  | some k =>
      if roomId != "" then
        let p := if roomTruthy s.currentRoom then leaveRoom s else (s, [])
        ({ p.1 with currentRoom := some roomId, messages := [] },
         p.2 ++ [Event.emitJoinRoom k roomId])
      else (s, [])
  | none => (s, [])

/-- `sendTextMessage`: guarded by `socket && inputMessage && currentRoom`;
emits `sendTextMessage` (the acknowledgment callback only logs) and clears
the input buffer synchronously after the emit. -/
def sendTextMessage (s : State) : State × List Event :=
  match s.socket, s.currentRoom with
  | some k, some r =>
      if s.inputMessage != "" ∧ r != "" then
        ({ s with inputMessage := "" },
         [Event.emitSendText k r s.inputMessage])
      else (s, [])
  | _, _ => (s, [])

/-- `sendFileMessage`: guarded by `socket && file && currentRoom`; starts a
`FileReader` whose outcome is `readResult` (`some data` when `onload` fires
with a result, `none` when the read fails or yields no result).  Only the
successful branch emits `sendFileMessage` and clears the selection. -/
def sendFileMessage (readResult : Option (List Nat)) (s : State) :
    State × List Event :=
  match s.socket, s.file, s.currentRoom with
  | some k, some f, some r =>
      if r != "" then
        match readResult with
        | some data =>
            ({ s with file := none },
             [Event.emitSendFile k r f.name f.type f.size data])
        | none => (s, [])
      else (s, [])
  | _, _, _ => (s, [])

/-- `exitChatApplication`: disconnects the socket if present (the handle
itself is not cleared), then resets token, room list, current room, log,
connection flag and current user. -/
def exitChatApplication (s : State) : State × List Event :=
  let p : State × List Event :=
    match s.socket with
    | some k =>
        ({ s with openConns := s.openConns.filter (fun j => j != k) },
         [Event.disconnect k])
    | none => (s, [])
  ({ p.1 with
      authToken := ""
      chatRooms := []
      currentRoom := none
      messages := []
      isConnected := false
      currentUser := none },
   p.2)

/-- Handler for the `newMessage` push: append one message to the log. -/
def handleNewMessage (m : Message) (s : State) : State :=
  { s with messages := s.messages ++ [m] }

/-- Handler for the `newMessages` push: append the batch in order. -/
def handleNewMessages (ms : List Message) (s : State) : State :=
  { s with messages := s.messages ++ ms }

/-- Handler for the transport `connect` event. -/
def handleSockConnect (s : State) : State :=
  { s with isConnected := true }

/-- Handler for the transport `connect_error` event. -/
def handleSockConnectError (s : State) : State :=
  { s with isConnected := false }

/-- Handler for the transport `disconnect` event. -/
def handleSockDisconnect (s : State) : State :=
  { s with isConnected := false }

/-- Completion of a successful `GET /chat/rooms`: wholesale replacement. -/
def fetchChatRoomsSuccess (rooms : List ChatRoom) (s : State) : State :=
  { s with chatRooms := rooms }

/-- Completion of a successful `GET /user`. -/
def fetchUserInfoSuccess (u : User) (s : State) : State :=
  { s with currentUser := some u }

/-- The operations and external events the component can experience. -/
inductive Op
  | setAuthToken (t : String)
  | connect
  | join (roomId : String)
  | leave
  | sendText
  | sendFile (readResult : Option (List Nat))
  | exitApp
  | setInput (t : String)
  | selectFile (f : Option FileRef)
  | roomsFetched (rooms : List ChatRoom)
  | userFetched (u : User)
  | sockConnect
  | sockConnectError
  | sockDisconnect
  | newMsg (m : Message)
  | newMsgs (ms : List Message)

/-- One step of the component: user operations call the corresponding
callback; socket events are deliverable only while a socket handle exists
(handlers are registered on the socket at creation). -/
def applyOp (s : State) (op : Op) : State × List Event :=
  match op with
  | .setAuthToken t => ({ s with authToken := t }, [])
  | .connect => connectSocket s
  | .join r => joinRoom r s
  | .leave => leaveRoom s
  | .sendText => sendTextMessage s
  | .sendFile rd => sendFileMessage rd s
  | .exitApp => exitChatApplication s
  | .setInput t => ({ s with inputMessage := t }, [])
  | .selectFile f => ({ s with file := f }, [])
  | .roomsFetched rooms => (fetchChatRoomsSuccess rooms s, [])
  | .userFetched u => (fetchUserInfoSuccess u s, [])
  | .sockConnect => (if s.socket.isSome then handleSockConnect s else s, [])
  | .sockConnectError =>
      (if s.socket.isSome then handleSockConnectError s else s, [])
  | .sockDisconnect =>
      (if s.socket.isSome then handleSockDisconnect s else s, [])
  | .newMsg m => (if s.socket.isSome then handleNewMessage m s else s, [])
  | .newMsgs ms => (if s.socket.isSome then handleNewMessages ms s else s, [])

/-- Run a sequence of operations from the initial state. -/
def runOps (ops : List Op) : State :=
  ops.foldl (fun s op => (applyOp s op).1) initState

/-- A state is reachable when some operation sequence produces it. -/
def Reachable (s : State) : Prop := ∃ ops, runOps ops = s

/-- Structural invariant of reachable states: the connected flag implies a
stored socket handle, and the current room is never the empty string. -/
def StateInv (s : State) : Prop :=
  (s.isConnected = true → s.socket.isSome = true) ∧ s.currentRoom ≠ some ""

/-! ## Invariant machinery -/

theorem stateInv_initState : StateInv initState := by
  constructor
  · intro h
    simp [initState] at h
  · simp [initState]

theorem stateInv_applyOp (s : State) (op : Op) (h : StateInv s) :
    StateInv (applyOp s op).1 := by
  obtain ⟨sock, tok, rooms, room, msgs, input, fl, conn, usr, conns, nid⟩ := s
  obtain ⟨h1, h2⟩ := h
  cases op <;>
    simp only [applyOp, connectSocket, joinRoom, leaveRoom, sendTextMessage,
      sendFileMessage, exitChatApplication, handleNewMessage, handleNewMessages,
      handleSockConnect, handleSockConnectError, handleSockDisconnect,
      fetchChatRoomsSuccess, fetchUserInfoSuccess, roomTruthy, StateInv] at * <;>
    repeat' split
  all_goals simp_all

theorem stateInv_foldl (l : List Op) (t : State) (h : StateInv t) :
    StateInv (l.foldl (fun s op => (applyOp s op).1) t) := by
  induction l generalizing t with
  | nil => exact h
  | cons a as ih => exact ih _ (stateInv_applyOp t a h)

theorem reachable_stateInv (s : State) (h : Reachable s) : StateInv s := by
  obtain ⟨ops, rfl⟩ := h
  exact stateInv_foldl ops initState stateInv_initState

/-! ## Concrete traces used as witnesses -/

/-- A sample text message. -/
def mTest : Message :=
  { type := MessageType.text
    sender := none
    content := some "hi"
    file := none
    sentAt := 0 }

/-- Token set and socket created, but the `connect` event has not fired yet. -/
def opsConnOnly : List Op := [Op.setAuthToken "t", Op.connect]

/-- The state reached by `opsConnOnly`. -/
def sConnOnly : State := runOps opsConnOnly

/-- Connected and joined to room `r1`. -/
def opsJoined : List Op :=
  [Op.setAuthToken "t", Op.connect, Op.sockConnect, Op.join "r1"]

/-- The state reached by `opsJoined`. -/
def sJoined : State := runOps opsJoined

/-! ## Claims -/

/-- C1: from every reachable connected state that is in room `A`, joining a
non-empty room `B` (including `B = A`) yields state in-room(`B`) with an empty
message log and emits exactly one `leave-room` for `A` followed by exactly one
`join-room` for `B`; all other state fields are unchanged. -/
theorem c1_join_while_in_room (s : State) (k : Nat) (A B : String)
    (hR : Reachable s) (_hc : s.isConnected = true) (hs : s.socket = some k)
    (hr : s.currentRoom = some A) (hB : B ≠ "") :
    joinRoom B s =
      ({ s with currentRoom := some B, messages := [] },
       [Event.emitLeaveRoom k A, Event.emitJoinRoom k B]) := by
  have hA : A ≠ "" := by
    intro hAe
    rw [hAe] at hr
    exact (reachable_stateInv s hR).2 hr
  simp [joinRoom, leaveRoom, roomTruthy, hs, hr, hA, hB]

/-- Witness for C1: concretely joining `r2` from the reachable state joined
to `r1`. -/
theorem c1_join_while_in_room_witness :
    joinRoom "r2" sJoined =
      ({ sJoined with currentRoom := some "r2", messages := [] },
       [Event.emitLeaveRoom 0 "r1", Event.emitJoinRoom 0 "r2"]) :=
  c1_join_while_in_room sJoined 0 "r1" "r2" ⟨opsJoined, rfl⟩ rfl rfl rfl
    (by decide)

/-- C2 (amended): every callback of the component (connect, join, leave,
send text, send file, exit) preserves the invariant "no current room implies
an empty message log", but the inbound push handlers append to the log
unconditionally, even when no room is current. -/
theorem c2_log_invariant_amended (s : State) (r : String) (m : Message)
    (ms : List Message) (rd : Option (List Nat))
    (hP : s.currentRoom = none → s.messages = []) :
    ((connectSocket s).1.currentRoom = none →
      (connectSocket s).1.messages = []) ∧
    ((joinRoom r s).1.currentRoom = none → (joinRoom r s).1.messages = []) ∧
    ((leaveRoom s).1.currentRoom = none → (leaveRoom s).1.messages = []) ∧
    ((sendTextMessage s).1.currentRoom = none →
      (sendTextMessage s).1.messages = []) ∧
    ((sendFileMessage rd s).1.currentRoom = none →
      (sendFileMessage rd s).1.messages = []) ∧
    ((exitChatApplication s).1.currentRoom = none →
      (exitChatApplication s).1.messages = []) ∧
    (handleNewMessage m s).messages = s.messages ++ [m] ∧
    (handleNewMessages ms s).messages = s.messages ++ ms := by
  obtain ⟨sock, tok, rooms, room, msgs, input, fl, conn, usr, conns, nid⟩ := s
  refine ⟨?_, ?_, ?_, ?_, ?_, ?_, rfl, rfl⟩ <;>
    simp only [connectSocket, joinRoom, leaveRoom, sendTextMessage,
      sendFileMessage, exitChatApplication, roomTruthy] at * <;>
    repeat' split
  all_goals simp_all

/-- Witness for C2 (amended), at the reachable state joined to `r1`. -/
theorem c2_log_invariant_amended_witness :
    ((connectSocket sJoined).1.currentRoom = none →
      (connectSocket sJoined).1.messages = []) ∧
    ((joinRoom "r2" sJoined).1.currentRoom = none →
      (joinRoom "r2" sJoined).1.messages = []) ∧
    ((leaveRoom sJoined).1.currentRoom = none →
      (leaveRoom sJoined).1.messages = []) ∧
    ((sendTextMessage sJoined).1.currentRoom = none →
      (sendTextMessage sJoined).1.messages = []) ∧
    ((sendFileMessage none sJoined).1.currentRoom = none →
      (sendFileMessage none sJoined).1.messages = []) ∧
    ((exitChatApplication sJoined).1.currentRoom = none →
      (exitChatApplication sJoined).1.messages = []) ∧
    (handleNewMessage mTest sJoined).messages = sJoined.messages ++ [mTest] ∧
    (handleNewMessages [mTest] sJoined).messages = sJoined.messages ++ [mTest] :=
  c2_log_invariant_amended sJoined "r2" mTest [mTest] none (by decide)

/-- C2 is refuted as stated: a `newMessage` push delivered while no room is
current is appended to the log, so a reachable no-room state with a non-empty
log exists. -/
theorem c2_counterexample :
    (runOps [Op.setAuthToken "t", Op.connect, Op.newMsg mTest]).currentRoom
        = none ∧
    (runOps [Op.setAuthToken "t", Op.connect, Op.newMsg mTest]).messages
        = [mTest] ∧
    (runOps [Op.setAuthToken "t", Op.connect, Op.newMsg mTest]).messages
        ≠ [] := by
  exact ⟨rfl, rfl, by decide⟩

/-- C3 (amended): `joinRoom` and `leaveRoom` are no-ops whenever no socket
handle is stored — the guard is the socket handle (and, for leave, a current
room), not the `isConnected` flag. -/
theorem c3_noop_without_socket_amended (s : State) (r : String)
    (hs : s.socket = none) :
    joinRoom r s = (s, []) ∧ leaveRoom s = (s, []) := by
  constructor
  · simp [joinRoom, hs]
  · cases hr : s.currentRoom <;> simp [leaveRoom, hs, hr]

/-- Witness for C3 (amended): at the initial state. -/
theorem c3_noop_without_socket_amended_witness :
    joinRoom "r1" initState = (initState, []) ∧
    leaveRoom initState = (initState, []) :=
  c3_noop_without_socket_amended initState "r1" rfl

/-- C3 is refuted as stated: in the reachable state where the socket was
created but its `connect` event has not yet fired, `isConnected` is false yet
`joinRoom` emits a `join-room` and changes the current room. -/
theorem c3_counterexample :
    sConnOnly.isConnected = false ∧
    sConnOnly.currentRoom = none ∧
    (joinRoom "r1" sConnOnly).1.currentRoom = some "r1" ∧
    (joinRoom "r1" sConnOnly).2 = [Event.emitJoinRoom 0 "r1"] :=
  ⟨rfl, rfl, rfl, rfl⟩

/-- C4 (amended): `connectSocket` with a non-empty credential creates and
stores a fresh connection without tearing down the previous one — it emits
only the connection-creation action and every previously open connection
remains open. -/
theorem c4_connect_keeps_old_connection_amended (s : State)
    (h : s.authToken ≠ "") :
    (connectSocket s).1.openConns = s.openConns ++ [s.nextId] ∧
    (connectSocket s).1.socket = some s.nextId ∧
    (connectSocket s).2 = [Event.connCreated s.nextId s.authToken] := by
  simp [connectSocket, h]

/-- Witness for C4 (amended): reconnecting from the state that already holds
an open connection. -/
theorem c4_connect_keeps_old_connection_amended_witness :
    (connectSocket sConnOnly).1.openConns
        = sConnOnly.openConns ++ [sConnOnly.nextId] ∧
    (connectSocket sConnOnly).1.socket = some sConnOnly.nextId ∧
    (connectSocket sConnOnly).2
        = [Event.connCreated sConnOnly.nextId sConnOnly.authToken] :=
  c4_connect_keeps_old_connection_amended sConnOnly (by decide)

/-- C4 is refuted as stated: connecting twice with the same non-empty token
reaches a state holding two open connections, and the second `connectSocket`
performs no teardown (its only action is creating the new connection). -/
theorem c4_counterexample :
    (runOps [Op.setAuthToken "t", Op.connect, Op.connect]).openConns
        = [0, 1] ∧
    (connectSocket sConnOnly).2 = [Event.connCreated 1 "t"] :=
  ⟨rfl, rfl⟩

/-- C5: `exitChatApplication` from any state clears the credential, the
connected flag, the current room, the message log, the room summaries and the
current user; it is idempotent (a second call produces the same state), and
the second call's actions are nothing beyond a transport disconnect. -/
theorem c5_exit_resets_and_idempotent (s : State) :
    (exitChatApplication s).1.authToken = "" ∧
    (exitChatApplication s).1.isConnected = false ∧
    (exitChatApplication s).1.currentRoom = none ∧
    (exitChatApplication s).1.messages = [] ∧
    (exitChatApplication s).1.chatRooms = [] ∧
    (exitChatApplication s).1.currentUser = none ∧
    (exitChatApplication (exitChatApplication s).1).1
        = (exitChatApplication s).1 ∧
    (exitChatApplication (exitChatApplication s).1).2.all Event.isDisconnect
        = true := by
  obtain ⟨sock, tok, rooms, room, msgs, input, fl, conn, usr, conns, nid⟩ := s
  cases sock <;>
    simp [exitChatApplication, Event.isDisconnect, List.filter_filter]

/-- C6: the `newMessages` handler appends a delivered batch to the current
log in exactly the given order, and the `newMessage` handler appends the
single delivered message; nothing is reordered, deduplicated or dropped. -/
theorem c6_push_appends_in_order (s : State) (m : Message)
    (ms : List Message) (h : s.socket.isSome = true) :
    (applyOp s (Op.newMsgs ms)).1.messages = s.messages ++ ms ∧
    (applyOp s (Op.newMsg m)).1.messages = s.messages ++ [m] := by
  simp [applyOp, h, handleNewMessage, handleNewMessages]

/-- Witness for C6: pushes delivered in the joined state. -/
theorem c6_push_appends_in_order_witness :
    (applyOp sJoined (Op.newMsgs [mTest])).1.messages
        = sJoined.messages ++ [mTest] ∧
    (applyOp sJoined (Op.newMsg mTest)).1.messages
        = sJoined.messages ++ [mTest] :=
  c6_push_appends_in_order sJoined mTest [mTest] rfl

/-- Joined to `r1` with text typed into the input buffer. -/
def opsTyped : List Op := opsJoined ++ [Op.setInput "hi"]

/-- The state reached by `opsTyped`. -/
def sTyped : State := runOps opsTyped

/-- C7: in any reachable state, `sendTextMessage` emits nothing and changes
nothing when the input text is empty or no room is current; when connected,
in a room, and the text is non-empty, it emits exactly one text-send request
carrying the room id and the content, and clears the input buffer (the
acknowledgment callback only logs). -/
theorem c7_sendText_guard_and_emit (s : State) (r : String)
    (hR : Reachable s) :
    ((s.inputMessage = "" ∨ s.currentRoom = none) →
      sendTextMessage s = (s, [])) ∧
    (s.isConnected = true → s.currentRoom = some r → s.inputMessage ≠ "" →
      ∃ k, s.socket = some k ∧
        sendTextMessage s =
          ({ s with inputMessage := "" },
           [Event.emitSendText k r s.inputMessage])) := by
  obtain ⟨h1, h2⟩ := reachable_stateInv s hR
  constructor
  · rintro (hin | hroom)
    · cases hs : s.socket <;> cases hr : s.currentRoom <;>
        simp [sendTextMessage, hs, hr, hin]
    · cases hs : s.socket <;> simp [sendTextMessage, hs, hroom]
  · intro hc hr hin
    obtain ⟨k, hk⟩ := Option.isSome_iff_exists.mp (h1 hc)
    have hrne : r ≠ "" := by
      intro hre
      rw [hre] at hr
      exact h2 hr
    exact ⟨k, hk, by simp [sendTextMessage, hk, hr, hin, hrne]⟩

/-- Witness for C7: sending from the typed state. -/
theorem c7_sendText_guard_and_emit_witness :
    ((sTyped.inputMessage = "" ∨ sTyped.currentRoom = none) →
      sendTextMessage sTyped = (sTyped, [])) ∧
    (sTyped.isConnected = true → sTyped.currentRoom = some "r1" →
      sTyped.inputMessage ≠ "" →
      ∃ k, sTyped.socket = some k ∧
        sendTextMessage sTyped =
          ({ sTyped with inputMessage := "" },
           [Event.emitSendText k "r1" sTyped.inputMessage])) :=
  c7_sendText_guard_and_emit sTyped "r1" ⟨opsTyped, rfl⟩

/-- A sample selected local file. -/
def fTest : FileRef := { name := "a.png", type := "image/png", size := 3 }

/-- Joined to `r1` with a file selected for sending. -/
def opsFileSelected : List Op := opsJoined ++ [Op.selectFile (some fTest)]

/-- The state reached by `opsFileSelected`. -/
def sFileSelected : State := runOps opsFileSelected

/-- C8: when the file read started by `sendFileMessage` fails or yields no
result, the send is silently abandoned — no event is emitted, no state
changes, and in particular the pending file selection remains set (it is
cleared only in the successful encode-and-emit branch). -/
theorem c8_file_read_failure_abandons (s : State) (k : Nat) (f : FileRef)
    (r : String) (hs : s.socket = some k) (hf : s.file = some f)
    (hr : s.currentRoom = some r) (_hrne : r ≠ "") :
    sendFileMessage none s = (s, []) ∧
    (sendFileMessage none s).1.file = some f := by
  have hnoop : sendFileMessage none s = (s, []) := by
    simp [sendFileMessage, hs, hf, hr]
  exact ⟨hnoop, by rw [hnoop]; exact hf⟩

/-- Witness for C8: a failed read in the file-selected state. -/
theorem c8_file_read_failure_abandons_witness :
    sendFileMessage none sFileSelected = (sFileSelected, []) ∧
    (sendFileMessage none sFileSelected).1.file = some fTest :=
  c8_file_read_failure_abandons sFileSelected 0 fTest "r1" rfl rfl rfl
    (by decide)

/-- C9: `exitChatApplication` never clears the stored socket handle (it only
disconnects the transport), so from any state holding a socket handle,
joining a non-empty room right after exit still emits a `join-room` on the
now-disconnected socket and sets the current room. -/
theorem c9_exit_keeps_socket_join_still_emits (s : State) (k : Nat)
    (r : String) (hs : s.socket = some k) (hrne : r ≠ "") :
    (exitChatApplication s).1.socket = some k ∧
    k ∉ (exitChatApplication s).1.openConns ∧
    joinRoom r (exitChatApplication s).1 =
      ({ (exitChatApplication s).1 with
          currentRoom := some r, messages := [] },
       [Event.emitJoinRoom k r]) := by
  refine ⟨by simp [exitChatApplication, hs], ?_, ?_⟩
  · intro hmem
    simp [exitChatApplication, hs, List.mem_filter] at hmem
  · simp [exitChatApplication, joinRoom, roomTruthy, hs, hrne]

/-- Witness for C9: exiting from the joined state and then joining `r2`. -/
theorem c9_exit_keeps_socket_join_still_emits_witness :
    (exitChatApplication sJoined).1.socket = some 0 ∧
    0 ∉ (exitChatApplication sJoined).1.openConns ∧
    joinRoom "r2" (exitChatApplication sJoined).1 =
      ({ (exitChatApplication sJoined).1 with
          currentRoom := some "r2", messages := [] },
       [Event.emitJoinRoom 0 "r2"]) :=
  c9_exit_keeps_socket_join_still_emits sJoined 0 "r2" rfl (by decide)

/-- C10: the action trace of `exitChatApplication` never contains a
`leave-room` emission — from any state, everything it does is at most a
transport disconnect, so the server is never told the current room was
left. -/
theorem c10_exit_never_emits_leave (s : State) :
    (exitChatApplication s).2.filter Event.isLeaveRoom = [] ∧
    (exitChatApplication s).2.all Event.isDisconnect = true := by
  obtain ⟨sock, tok, rooms, room, msgs, input, fl, conn, usr, conns, nid⟩ := s
  cases sock <;>
    simp [exitChatApplication, Event.isLeaveRoom, Event.isDisconnect]
